import Mathlib

/-!
Verification embedding of the coordination core of `autodock-vina-app`
(`src/autodock-src/my_autodock.py`, line numbers below refer to that file).

Modelling conventions:
* A result record is the string `f'{filename} {score}\n'` appended by
  `run_docking` (line 554).  We model it as a structure carrying the two
  fields; operations that act on the rendered string (`split(' ')[1]`,
  indexing character 1) are modelled explicitly on that structure.
  Filenames are ligand ids and contain no space (every `split(' ')` in the
  source already assumes this).
* Python floats are modelled by `ℚ`; the code only ever parses, compares
  and sorts scores, so the ordered-field behaviour is what matters.
* A Python statement that can raise an exception not caught inside the
  modelled function is modelled with `Option`: `none` means the
  surrounding loop aborts.
* Python's `sorted` is a stable sort.  `List.insertionSort` with a
  non-strict (total preorder) key comparison is also stable — the element
  being inserted comes earlier in the original list than everything in the
  already-sorted suffix and is placed before the first entry with an
  equal key — so the two agree on every input.
* Logging output, file-system side effects (`os.remove`,
  `cat results_*.txt`, writing output files) and the MPI transport are
  outside the embedded state; the spec declares log formatting and
  filesystem layout out of scope.  An exception raised while *building* a
  log message is still a control-flow event and is modelled (see
  `sort_for_rank1`).
-/

/-- A score record, the payload of the string `f'{filename} {score}\n'`
built in `run_docking` (line 554).  `id` is the ligand filename (never
empty, never containing a space). -/
structure ScoreRecord where
  id : String
  score : ℚ
deriving DecidableEq, Repr

/-- The character at index 1 of the rendered record line
`f'{id} {score}\n'`.  For a non-empty `id` this is either the second
character of `id` (when `id` has two or more characters) or the separating
space. -/
def sortKeyChar (r : ScoreRecord) : Char :=
  (r.id ++ " ").toList.getD 1 ' '

/-- Python `float(c)` on a single character: a decimal digit parses to its
value, any other character raises `ValueError` (modelled as `none`). -/
def pyFloatOfChar (c : Char) : Option ℚ :=
  if c.isDigit then some (mkRat (Int.ofNat (c.toNat - 48)) 1) else none

/-- The sort key used on line 379, `lambda x: float(x[1])`: the float
value of the SECOND CHARACTER of the record string `x` — not of its score
field (the score would be `float(x.split(' ')[1])`, as written on line 322
and in `final_sort` on line 630). -/
def rank1Key (r : ScoreRecord) : Option ℚ :=
  pyFloatOfChar (sortKeyChar r)

/-- Comparison of `rank1Key` values; only used on records whose key is
defined (otherwise the `sorted` call raises before comparing). -/
def rank1le (r s : ScoreRecord) : Prop :=
  (rank1Key r).getD 0 ≤ (rank1Key s).getD 0

instance : DecidableRel rank1le := fun r s =>
  inferInstanceAs (Decidable ((rank1Key r).getD 0 ≤ (rank1Key s).getD 0))

instance : IsTotal ScoreRecord rank1le :=
  ⟨fun r s => le_total ((rank1Key r).getD 0) ((rank1Key s).getD 0)⟩

instance : IsTrans ScoreRecord rank1le := ⟨fun _ _ _ h h' => le_trans h h'⟩

/-- The body of `sort_for_rank1` from line 351 on, i.e. with the defective
logging statement of line 350 removed: sort the buffer with key
`lambda x: float(x[1])` (line 379) and return the first
`NUMBER_OF_OUTPUTS` entries (line 384).  If any record's key fails to
parse, `float` raises `ValueError` and the call aborts (`none`). -/
def sort_for_rank1_trimmed (K : ℕ) (top_scores : List ScoreRecord) : Option (List ScoreRecord) :=
  if top_scores.all (fun r => (rank1Key r).isSome) then
    some ((top_scores.insertionSort rank1le).take K)
  else
    none

/-- Line 350 of `sort_for_rank1` is `logging.info(f'scores: \x7bscores\x7d')`.
No name `scores` is bound at module scope (the `scores` of
`clean_as_we_go` is a local of that function), so evaluating the f-string
raises `NameError` on every call, before any sorting happens. -/
def logUndefinedScores : Option Unit := none

/-- `sort_for_rank1(top_scores)` (lines 341–384) as written: line 350
raises `NameError` (see `logUndefinedScores`), so the call never returns;
the sorting logic that would run afterwards is `sort_for_rank1_trimmed`. -/
def sort_for_rank1 (K : ℕ) (top_scores : List ScoreRecord) : Option (List ScoreRecord) :=
  match logUndefinedScores with
  | none => none
  | some _ => sort_for_rank1_trimmed K top_scores

/-- The state of rank 1 inside `clean_as_we_go`: the `file_counter` and
`lines_to_keep` locals (lines 296–297). -/
structure AggState where
  fileCounter : ℕ
  linesToKeep : List ScoreRecord
deriving DecidableEq, Repr

/-- Initial rank-1 state: `file_counter = 0`, `lines_to_keep = []`. -/
def initAggState : AggState := ⟨0, []⟩

/-- The buffer after lines 313–315 of one loop iteration: scores are
appended (and counted) only when the incoming list is non-empty. -/
def appendedBuffer (st : AggState) (scores : List ScoreRecord) : AggState :=
  if 0 < scores.length then ⟨st.fileCounter + scores.length, st.linesToKeep ++ scores⟩ else st

/-- One iteration of the `clean_as_we_go` loop (lines 299–326) on a
`'File results'` message carrying `scores`, parametrised by the compaction
routine (`sort_for_rank1` as written, or its trimmed variant).  Returns
the new state and the `minimum_viable_score` published to rank 0 with
tag 3 (line 326), or `none` when the iteration raises: inside the
compaction routine, or an `IndexError` from `lines_to_keep[-1]` on an
empty buffer (line 322). -/
def aggStepWith (sortImpl : ℕ → List ScoreRecord → Option (List ScoreRecord))
    (K : ℕ) (st : AggState) (scores : List ScoreRecord) : Option (AggState × ℚ) :=
  -- lines 318–320: compaction once the buffer reaches NUMBER_OF_OUTPUTS + 50
  match (if K + 50 ≤ (appendedBuffer st scores).linesToKeep.length then
           (sortImpl K (appendedBuffer st scores).linesToKeep).map
             (fun l => ⟨(appendedBuffer st scores).fileCounter, l⟩)
         else
           some (appendedBuffer st scores)) with
  | none => none
  | some st2 =>
    -- line 322: `minimum_viable_score = lines_to_keep[-1].split(' ')[1]`
    match st2.linesToKeep.getLast? with
    | none => none
    | some last => some (st2, last.score)

/-- One `clean_as_we_go` iteration as written in the source. -/
def aggStep : ℕ → AggState → List ScoreRecord → Option (AggState × ℚ) :=
  aggStepWith sort_for_rank1

/-- One `clean_as_we_go` iteration with the defective logging line 350
removed from `sort_for_rank1`, exposing the behaviour of the remaining
compaction logic. -/
def aggStepTrimmed : ℕ → AggState → List ScoreRecord → Option (AggState × ℚ) :=
  aggStepWith sort_for_rank1_trimmed

/-- Run the `clean_as_we_go` loop over a whole stream of result batches
(the `'stop working'` message arrives after the last batch).  Returns the
final state together with the list of published threshold values, or
`none` if some iteration raised. -/
def aggRunAuxWith (sortImpl : ℕ → List ScoreRecord → Option (List ScoreRecord))
    (K : ℕ) (st : AggState) : List (List ScoreRecord) → Option (AggState × List ℚ)
  | [] => some (st, [])
  | b :: bs =>
    match aggStepWith sortImpl K st b with
    | none => none
    | some (st', t) =>
      match aggRunAuxWith sortImpl K st' bs with
      | none => none
      | some (stF, ts) => some (stF, t :: ts)

/-- The aggregator's final output: the `lines_to_keep` list rank 1 sends
to rank 0 with tag 2 on `'stop working'` (line 335), for the code as
written. -/
def aggFinalOutput (K : ℕ) (batches : List (List ScoreRecord)) : Option (List ScoreRecord) :=
  (aggRunAuxWith sort_for_rank1 K initAggState batches).map (fun p => p.1.linesToKeep)

/-- The aggregator's final output with the defective logging line removed
from `sort_for_rank1`. -/
def aggFinalOutputTrimmed (K : ℕ) (batches : List (List ScoreRecord)) : Option (List ScoreRecord) :=
  (aggRunAuxWith sort_for_rank1_trimmed K initAggState batches).map (fun p => p.1.linesToKeep)

/-- The sequence of `minimum_viable_score` values published to rank 0
(tag 3), one per `'File results'` message (line 326), for the code as
written. -/
def aggThresholds (K : ℕ) (batches : List (List ScoreRecord)) : Option (List ℚ) :=
  (aggRunAuxWith sort_for_rank1 K initAggState batches).map (fun p => p.2)

/-- Rank 0's initial `minimum_viable_score = 1` (line 734); this is the
threshold stamped on every dispatch until rank 1 publishes an update. -/
def initialMinimumViableScore : ℚ := 1

/-- Lexicographic non-strict order on character lists (an executable
rendering of the dictionary order on strings). -/
def charListLeb : List Char → List Char → Bool
  | [], _ => true
  | _ :: _, [] => false
  | x :: xs, y :: ys => if x = y then charListLeb xs ys else decide (x < y)

/-- Dictionary order on item-ids, used for the spec's tie-break. -/
def strLeb (a b : String) : Bool :=
  charListLeb a.data b.data

/-- The total order the spec puts on ScoreRecords: ascending by score
(lower is better), ties broken by item-id. -/
def specLEb (r s : ScoreRecord) : Bool :=
  if r.score = s.score then strLeb r.id s.id else decide (r.score ≤ s.score)

/-- The spec's record order as a relation, for sorting. -/
def specStreamOrder (r s : ScoreRecord) : Prop :=
  specLEb r s = true

instance : DecidableRel specStreamOrder := fun r s =>
  inferInstanceAs (Decidable (specLEb r s = true))

/-- Modelled from the spec (§8 Top-K correctness): the K smallest-scoring
records of the full stream, sorted ascending by score, ties broken by
item-id.  This is the reference the code is compared against, not code of
the repository. -/
def specTopK (K : ℕ) (stream : List ScoreRecord) : List ScoreRecord :=
  (stream.insertionSort specStreamOrder).take K

/-- Ascending-by-score comparison, the key `lambda x: float(x.split(" ")[1])`
used by `final_sort` (line 630). -/
def scorele (r s : ScoreRecord) : Prop :=
  r.score ≤ s.score

instance : DecidableRel scorele := fun r s =>
  inferInstanceAs (Decidable (r.score ≤ s.score))

instance : IsTotal ScoreRecord scorele := ⟨fun r s => le_total r.score s.score⟩

instance : IsTrans ScoreRecord scorele := ⟨fun _ _ _ h h' => le_trans h h'⟩

/-- `final_sort(top_ligands, start_time)` (lines 583–645), restricted to
the data it computes: `merged_leftovers` models the `result` list built
from `merged_results.txt` (lines 617–627); the statement that would merge
it into the sort (line 629) is commented out, so it is dead after being
built.  The function writes `sorted(top_ligands, key=...)[:NUMBER_OF_OUTPUTS]`
to `sorted_scores.txt` (lines 630–634); that list is the value returned to
post-processing. -/
def final_sort (N : ℕ) (top_ligands merged_leftovers : List ScoreRecord) : List ScoreRecord :=
  let result : List ScoreRecord := merged_leftovers
  let sorted_result := top_ligands.insertionSort scorele
  -- `result` is built and never consumed; keep the binding to mirror the source
  let _ := result
  sorted_result.take N

/-- `NUMBER_OF_OUTPUTS = args.number if args.number <= 1000 else 1000`
(line 72 of my_autodock.py; identically line 85 of autodock.py). -/
def numberOfOutputsOf (number : ℤ) : ℤ :=
  if number ≤ 1000 then number else 1000

/-- What the external scorer does with one ligand of a decoded batch, as
observed by `run_docking` (lines 533–561).  `scored s ok` means
`v.dock` succeeded with pose energy `s` (line 548); `ok` records whether
the later `v.write_poses` call succeeds (its failure is caught on
line 559 AFTER the record was appended on line 554). -/
inductive DockOutcome where
  | emptyLigand
  | setLigandFail
  | dockFail
  | scored (score : ℚ) (poseWriteOk : Bool)
deriving DecidableEq, Repr

/-- One iteration of the `for _, filename in enumerate(ligands)` loop of
`run_docking` (lines 533–563), acting on the `pose_scores` accumulator:
empty ligands and per-item `set_ligand`/`dock` failures `continue`
without touching it; a successful score `s ≤ minimum_viable_score` is
appended (line 554) before `write_poses` runs, so the record stays in the
batch even when the pose write fails. -/
def dockItem (minimum_viable_score : ℚ) (pose_scores : List ScoreRecord)
    (filename : String) (outcome : DockOutcome) : List ScoreRecord :=
  match outcome with
  | .emptyLigand => pose_scores
  | .setLigandFail => pose_scores
  | .dockFail => pose_scores
  | .scored s _ =>
    if s ≤ minimum_viable_score then pose_scores ++ [⟨filename, s⟩] else pose_scores

/-- `run_docking(ligands, v, directory, minimum_viable_score)`
(lines 511–580): on an empty ligand dictionary it returns at line 524
without sending anything (`none`); otherwise it sends the accumulated
`pose_scores` payload to rank 1 (line 578). -/
def run_docking (minimum_viable_score : ℚ)
    (ligands : List (String × DockOutcome)) : Option (List ScoreRecord) :=
  if ligands.isEmpty then
    none
  else
    some (ligands.foldl (fun acc it => dockItem minimum_viable_score acc it.1 it.2) [])

/-- Modelled from the spec (§8 `scoreAndFilter`): the `(id, score)` pairs
of exactly the items that scored successfully with score ≤ threshold, in
item order. -/
def specScoreAndFilter (threshold : ℚ)
    (items : List (String × DockOutcome)) : List ScoreRecord :=
  items.filterMap (fun it =>
    match it.2 with
    | .scored s _ => if s ≤ threshold then some ⟨it.1, s⟩ else none
    | _ => none)

/-- What `unpickle_and_decompress(path)` (lines 480–508) does, as seen by
its caller: decompression and unpickling failures are caught INSIDE the
function (lines 496–506, yielding `{}`), so `ok items` covers every path
on which the file could be read (possibly with `items = []`); `openFail`
is the uncaught exception from `open(path_to_file, 'rb')` on line 493,
which propagates to the caller before `ligands` is assigned. -/
inductive UnpickleOutcome where
  | ok (ligands : List (String × DockOutcome))
  | openFail
deriving DecidableEq, Repr

/-- One iteration of the work-request loop of `processing` (lines 444–475)
after a `(minimum_viable_score, ligand_set_path)` response.  The first
component of the state is the current binding of the local name `ligands`
(`none` before the first successful assignment).  A decode failure is
caught on line 460 and leaves the binding unchanged; `run_docking` is then
called on line 465 with whatever `ligands` holds — the PREVIOUS unit's
items, or, on the first iteration, an unbound name whose `NameError` is
caught by the except on line 466 (so nothing is emitted). -/
def workerStep (ligands : Option (List (String × DockOutcome))) (minimum_viable_score : ℚ)
    (decoded : UnpickleOutcome) :
    Option (List (String × DockOutcome)) × Option (List ScoreRecord) :=
  let ligands' :=
    match decoded with
    | .ok items => some items
    | .openFail => ligands
  let emitted :=
    match ligands' with
    | none => none
    | some items => run_docking minimum_viable_score items
  (ligands', emitted)

/-- The sequence of result batches a worker emits over a list of
dispatched responses, threading the `ligands` binding through
`workerStep`; `none` entries mean the iteration sent no payload. -/
def workerEmissions (ligands : Option (List (String × DockOutcome))) :
    List (ℚ × UnpickleOutcome) → List (Option (List ScoreRecord))
  | [] => []
  | (mvs, dec) :: rest =>
    let p := workerStep ligands mvs dec
    p.2 :: workerEmissions p.1 rest

/-- Python's `str.endswith(suffix)`, expressed on the character lists of
the two strings (the built-in `String.endsWith` works on byte positions,
which a proof cannot evaluate; on valid strings the two agree). -/
def strEndsWith (s suffix : String) : Bool :=
  suffix.data.isSuffixOf s.data

/-- The full enumeration `prep_ligands` builds (lines 275–279): walk
entries `(dirpath, filename)` whose filename ends in `.pkl` or `.dat`,
rendered as `f'{dirpath}/{filename}'`. -/
def enumeratedUnits (walk : List (String × String)) : List String :=
  (walk.filter (fun p => strEndsWith p.2 (".pkl") || strEndsWith p.2 (".dat"))).map
    (fun p => p.1 ++ "/" ++ p.2)

/-- `prep_ligands()` (lines 264–284): builds `ligand_paths` as above and
returns `ligand_paths[0:1]` (line 284, under a `FIXME ... DO NOT SHIP`
comment). -/
def prep_ligands (walk : List (String × String)) : List String :=
  (enumeratedUnits walk).take 1

/-- The order in which rank 0's dispatch loop (lines 735–744) serves the
work units: `ligands.pop()` removes and returns the LAST element each
time, until the list is empty. -/
def dispatchOrder : List String → List String
  | [] => []
  | x :: xs => (x :: xs).getLast (by simp) :: dispatchOrder (x :: xs).dropLast
termination_by l => l.length
decreasing_by simp [List.length_dropLast]

/-- C1 failing input: a single batch of 51 records (with K = 1 this is
exactly the `K + 50` compaction trigger) — fifty records named `a9` with
score 5 and one record `b1` with score 99.  The second character of `b1`
sorts before the second character of `a9`, so with line 350 removed
compaction would keep the WORST-scoring record. -/
def cex1Batch : List ScoreRecord :=
  List.replicate 50 ⟨"a9", 5⟩ ++ [⟨"b1", 99⟩]

/-- C5 failing input: 52 records for K = 2; after compaction (with
line 350 removed) the buffer is `[("b1", 99), ("c5", 50)]`, which is not
ascending by score. -/
def cex5Batch : List ScoreRecord :=
  ⟨"b1", 99⟩ :: ⟨"a9", 1⟩ :: List.replicate 50 ⟨"c5", 50⟩

/-- C5 witness input: 51 identical records, enough to trigger compaction
at K = 1. -/
def witness5Batch : List ScoreRecord :=
  List.replicate 51 ⟨"d7", 3⟩

/-! ## Helper lemmas -/

/-- In every successful `clean_as_we_go` iteration, the published
`minimum_viable_score` is the score field of the LAST record of the
(possibly compacted) buffer — line 322 reads `lines_to_keep[-1]`. -/
theorem aggStepWith_threshold_eq_getLast
    (sortImpl : ℕ → List ScoreRecord → Option (List ScoreRecord))
    (K : ℕ) (st st' : AggState) (scores : List ScoreRecord) (t : ℚ)
    (h : aggStepWith sortImpl K st scores = some (st', t)) :
    ∃ last, st'.linesToKeep.getLast? = some last ∧ t = last.score := by
  unfold aggStepWith at h
  split at h
  · exact absurd h (by simp)
  · rename_i st2 heq
    split at h
    · exact absurd h (by simp)
    · rename_i last hlast
      rw [Option.some.injEq, Prod.mk.injEq] at h
      obtain ⟨h1, h2⟩ := h
      exact ⟨last, h1 ▸ hlast, h2.symm⟩

/-- A successful iteration of the loop as written leaves at most
`K + 49` records in the buffer: the compaction branch never succeeds
(`sort_for_rank1` raises), so success forces the pre-compaction size
check to have failed. -/
theorem aggStep_buffer_le (K : ℕ) (st st' : AggState) (scores : List ScoreRecord) (t : ℚ)
    (h : aggStepWith sort_for_rank1 K st scores = some (st', t)) :
    st'.linesToKeep.length ≤ K + 49 := by
  unfold aggStepWith at h
  split at h
  · exact absurd h (by simp)
  · rename_i st2 heq
    split at h
    · exact absurd h (by simp)
    · rename_i last hlast
      rw [Option.some.injEq, Prod.mk.injEq] at h
      obtain ⟨h1, _⟩ := h
      subst h1
      split at heq
      · simp [sort_for_rank1, logUndefinedScores] at heq
      · rename_i hc
        rw [Option.some.injEq] at heq
        subst heq
        omega

/-- The buffer bound propagates through a whole run of the loop as
written. -/
theorem aggRunAux_buffer_le (K : ℕ) (batches : List (List ScoreRecord))
    (st stF : AggState) (ts : List ℚ) (hst : st.linesToKeep.length ≤ K + 49)
    (h : aggRunAuxWith sort_for_rank1 K st batches = some (stF, ts)) :
    stF.linesToKeep.length ≤ K + 49 := by
  induction batches generalizing st ts with
  | nil =>
    unfold aggRunAuxWith at h
    rw [Option.some.injEq, Prod.mk.injEq] at h
    obtain ⟨h1, _⟩ := h
    exact h1 ▸ hst
  | cons b bs ih =>
    unfold aggRunAuxWith at h
    split at h
    · exact absurd h (by simp)
    · rename_i st' t hstep
      split at h
      · exact absurd h (by simp)
      · rename_i stF' ts' hrun
        rw [Option.some.injEq, Prod.mk.injEq] at h
        obtain ⟨h1, _⟩ := h
        subst h1
        exact ih st' ts' (aggStep_buffer_le K st st' b t hstep) hrun

/-- Folding `dockItem` over a batch appends exactly the records of the
successfully scored items that pass the threshold, in item order. -/
theorem dockItem_foldl (mvs : ℚ) (items : List (String × DockOutcome)) :
    ∀ acc : List ScoreRecord,
      items.foldl (fun a it => dockItem mvs a it.1 it.2) acc =
        acc ++ specScoreAndFilter mvs items := by
  induction items with
  | nil => intro acc; simp [specScoreAndFilter]
  | cons hd tl ih =>
    intro acc
    obtain ⟨fn, o⟩ := hd
    rw [List.foldl_cons, ih]
    cases o with
    | emptyLigand => simp [dockItem, specScoreAndFilter, List.filterMap_cons]
    | setLigandFail => simp [dockItem, specScoreAndFilter, List.filterMap_cons]
    | dockFail => simp [dockItem, specScoreAndFilter, List.filterMap_cons]
    | scored s ok =>
      by_cases hs : s ≤ mvs
      · simp [dockItem, hs, specScoreAndFilter, List.filterMap_cons]
      · simp [dockItem, hs, specScoreAndFilter, List.filterMap_cons]

/-! ## Claim theorems -/

/-- C1 (Top-K correctness, evaluated at a failing input).  The claim says
a fully-drained unfiltered stream yields the K smallest records sorted
ascending with id tie-break.  The code does not: (i) on a 51-record
stream with K = 1 the compaction raises (`NameError` on line 350) and the
aggregator produces no final output at all; (ii) with that defective
logging line removed, the compaction keeps `("b1", 99)` — the record
whose LINE has the smallest second character — instead of the smallest
score `("a9", 5)`; (iii) even on a short stream that never compacts
(2 records, K = 1) the final output is the raw 2-record buffer in arrival
order, not the single smallest record. -/
theorem aggregator_topk_divergence :
    aggFinalOutput 1 [cex1Batch] = none ∧
    aggFinalOutputTrimmed 1 [cex1Batch] = some [⟨"b1", 99⟩] ∧
    specTopK 1 cex1Batch = [⟨"a9", 5⟩] ∧
    (⟨"b1", 99⟩ : ScoreRecord) ≠ ⟨"a9", 5⟩ ∧
    aggFinalOutput 1 [[⟨"aa", 5⟩, ⟨"bb", 2⟩]] = some [⟨"aa", 5⟩, ⟨"bb", 2⟩] ∧
    specTopK 1 [⟨"aa", 5⟩, ⟨"bb", 2⟩] = [⟨"bb", 2⟩] :=
  ⟨by decide, by decide, by decide, by decide, by decide, by decide⟩

/-- C2 (monotonic threshold, evaluated at a failing input).  The
published threshold is the last buffer record's score on EVERY message,
so two single-record batches with scores 5 then 7 make the published
sequence `[5, 7]`, which loosens: `7 ≤ 5` fails. -/
theorem threshold_increases_eval :
    aggThresholds 3 [[⟨"aa", 5⟩], [⟨"bb", 7⟩]] = some [5, 7] ∧ ¬ ((7 : ℚ) ≤ 5) :=
  ⟨by decide, by decide⟩

/-- C3 counterexample.  With K = 3 a single 1-record batch leaves an
under-filled buffer, yet the published threshold is that record's score 5
(not an admit-everything sentinel: it rejects score 6); and the initial
threshold is 1, which rejects score 2 — it does not admit everything. -/
theorem threshold_sentinel_counterexample :
    aggFinalOutput 3 [[⟨"aa", 5⟩]] = some [⟨"aa", 5⟩] ∧
    aggThresholds 3 [[⟨"aa", 5⟩]] = some [5] ∧
    ¬ ((6 : ℚ) ≤ 5) ∧
    ¬ ((2 : ℚ) ≤ initialMinimumViableScore) :=
  ⟨by decide, by decide, by decide, by decide⟩

/-- C3 as amended: every threshold the aggregator publishes equals the
score field of the last record of its current buffer (`lines_to_keep[-1]`),
whether or not that buffer is filled to K; the read raises on an empty
buffer instead of yielding a sentinel; and the initial threshold is the
constant 1, which admits only scores ≤ 1. -/
theorem threshold_equals_last_record_score (K : ℕ) (st st' : AggState)
    (scores : List ScoreRecord) (t : ℚ) (h : aggStep K st scores = some (st', t)) :
    (∃ last, st'.linesToKeep.getLast? = some last ∧ t = last.score) ∧
    initialMinimumViableScore = 1 :=
  ⟨aggStepWith_threshold_eq_getLast sort_for_rank1 K st st' scores t h, rfl⟩

/-- C3 witness: the amended statement holds at a concrete step. -/
theorem threshold_equals_last_record_score_witness :
    aggStep 3 initAggState [⟨"cc", 4⟩] = some (⟨1, [⟨"cc", 4⟩]⟩, 4) ∧
    ((∃ last, (AggState.mk 1 [⟨"cc", 4⟩]).linesToKeep.getLast? = some last ∧ (4 : ℚ) = last.score) ∧
      initialMinimumViableScore = 1) :=
  ⟨by decide, threshold_equals_last_record_score 3 initAggState ⟨1, [⟨"cc", 4⟩]⟩ [⟨"cc", 4⟩] 4 (by decide)⟩

/-- C4 (never aborts on a bad batch, evaluated at a failing input).  A
well-formed result message whose score list is empty — which
`run_docking` sends whenever no item passed the threshold — reaches
line 322 with an empty buffer and raises `IndexError`; the aggregator
loop aborts rather than dropping the batch. -/
theorem empty_batch_aborts_aggregator :
    aggStep 3 initAggState [] = none ∧ aggFinalOutput 3 [[]] = none :=
  ⟨by decide, by decide⟩

/-- C5 (compaction, evaluated at a failing input).  At buffer size
K + 50 the compaction is indeed triggered, but as written it raises
(`NameError`, line 350) and the aggregator dies — `aggStep` has no
post-compaction state.  With the defective logging line removed, the
surviving buffer `[("b1", 99), ("c5", 50)]` is sorted by the line's
second character, NOT ascending by score: `99 ≤ 50` fails. -/
theorem compaction_crash_eval :
    aggStep 2 initAggState cex5Batch = none ∧
    aggFinalOutputTrimmed 2 [cex5Batch] = some [⟨"b1", 99⟩, ⟨"c5", 50⟩] ∧
    ¬ ((99 : ℚ) ≤ 50) :=
  ⟨by decide, by decide, by decide⟩

/-- C6: for a non-empty decoded item set, the outgoing batch contains
exactly the `(id, score)` pairs of the items that scored successfully
with score ≤ threshold, in item order; per-item failures
(empty ligand, `set_ligand`, `dock`) skip only that item, and a
pose-write failure does not remove the already-appended record. -/
theorem score_and_filter_exact (mvs : ℚ) (items : List (String × DockOutcome))
    (h : items ≠ []) :
    run_docking mvs items = some (specScoreAndFilter mvs items) := by
  unfold run_docking
  rw [if_neg (by simpa using h)]
  rw [dockItem_foldl mvs items []]
  simp

/-- C6 witness: a concrete batch with one passing score, one docking
failure, one passing score whose pose write fails (still reported), and
one score above the threshold (processed but not retained). -/
theorem score_and_filter_exact_witness :
    ([("lig1", DockOutcome.scored (-1) true), ("lig2", DockOutcome.dockFail),
      ("lig3", DockOutcome.scored (-2) false), ("lig4", DockOutcome.scored 5 true)] ≠
        ([] : List (String × DockOutcome))) ∧
    run_docking 0
      [("lig1", DockOutcome.scored (-1) true), ("lig2", DockOutcome.dockFail),
       ("lig3", DockOutcome.scored (-2) false), ("lig4", DockOutcome.scored 5 true)] =
      some [⟨"lig1", -1⟩, ⟨"lig3", -2⟩] :=
  ⟨by decide,
    (score_and_filter_exact 0
      [("lig1", DockOutcome.scored (-1) true), ("lig2", DockOutcome.dockFail),
       ("lig3", DockOutcome.scored (-2) false), ("lig4", DockOutcome.scored 5 true)]
      (by decide)).trans (by decide)⟩

/-- C7 counterexample.  A leftover record with a strictly better score
than everything in the aggregator's returned list is absent from
`final_sort`'s output: the merged leftovers are read but never merged. -/
theorem final_sort_ignores_leftovers_counterexample :
    final_sort 3 [⟨"aa", 5⟩] [⟨"zz", -100⟩] = [⟨"aa", 5⟩] ∧
    (⟨"zz", -100⟩ : ScoreRecord) ∉ final_sort 3 [⟨"aa", 5⟩] [⟨"zz", -100⟩] ∧
    ((-100 : ℚ) < 5) :=
  ⟨by decide, by decide, by decide⟩

/-- C7 as amended: `final_sort` ignores the locally-accumulated leftovers
entirely and returns the aggregator's list re-sorted ascending by score
and truncated to `NUMBER_OF_OUTPUTS`; every output record comes from that
list. -/
theorem final_sort_characterization (N : ℕ) (tops leftovers : List ScoreRecord) :
    final_sort N tops leftovers = final_sort N tops [] ∧
    (final_sort N tops leftovers).Sorted scorele ∧
    (final_sort N tops leftovers).length ≤ N ∧
    ∀ r ∈ final_sort N tops leftovers, r ∈ tops := by
  refine ⟨rfl, ?_, ?_, ?_⟩
  · exact List.Pairwise.sublist (List.take_sublist N _) (List.sorted_insertionSort scorele tops)
  · exact List.length_take_le N _
  · intro r hr
    exact (List.perm_insertionSort scorele tops).mem_iff.mp (List.mem_of_mem_take hr)

/-- C8 counterexample.  With `NUMBER_OF_OUTPUTS` requested as 1 (≤ 1000,
so K = 1), a single 2-record batch never triggers compaction and the
aggregator's final output holds 2 > K records. -/
theorem final_output_exceeds_k_counterexample :
    numberOfOutputsOf 1 = 1 ∧
    aggFinalOutput 1 [[⟨"cc", 5⟩, ⟨"dd", 6⟩]] = some [⟨"cc", 5⟩, ⟨"dd", 6⟩] ∧
    ¬ (([(⟨"cc", 5⟩ : ScoreRecord), ⟨"dd", 6⟩]).length ≤ 1) :=
  ⟨by decide, by decide, by decide⟩

/-- C8 as amended: the requested count is clamped (`n` for `n ≤ 1000`,
1000 otherwise — in particular 5000 ↦ 1000), and the aggregator's final
output is bounded by `K + 49` records (not by K: the buffer is returned
verbatim, compacted or not). -/
theorem clamp_and_buffer_bound (n : ℤ) (K : ℕ) (batches : List (List ScoreRecord))
    (out : List ScoreRecord) (hn : n ≤ 1000) (h : aggFinalOutput K batches = some out) :
    numberOfOutputsOf n = n ∧ numberOfOutputsOf 5000 = 1000 ∧ out.length ≤ K + 49 := by
  refine ⟨if_pos hn, by decide, ?_⟩
  unfold aggFinalOutput at h
  cases hr : aggRunAuxWith sort_for_rank1 K initAggState batches with
  | none => rw [hr] at h; exact absurd h (by simp)
  | some p =>
    rw [hr, Option.map_some'] at h
    rw [Option.some.injEq] at h
    subst h
    obtain ⟨stF, ts⟩ := p
    exact aggRunAux_buffer_le K batches initAggState stF ts (by simp [initAggState]) hr

/-- C8 witness: the amended statement holds at a concrete run. -/
theorem clamp_and_buffer_bound_witness :
    (7 : ℤ) ≤ 1000 ∧
    aggFinalOutput 1 [[⟨"aa", 5⟩, ⟨"bb", 6⟩]] = some [⟨"aa", 5⟩, ⟨"bb", 6⟩] ∧
    (numberOfOutputsOf 7 = 7 ∧ numberOfOutputsOf 5000 = 1000 ∧
      ([(⟨"aa", 5⟩ : ScoreRecord), ⟨"bb", 6⟩]).length ≤ 1 + 49) :=
  ⟨by decide, by decide,
    clamp_and_buffer_bound 7 1 [[⟨"aa", 5⟩, ⟨"bb", 6⟩]] [⟨"aa", 5⟩, ⟨"bb", 6⟩]
      (by decide) (by decide)⟩

/-- C9: `prep_ligands` truncates the enumerated unit list to its first
element, so it returns at most one unit and no unit after the first is
ever served by rank 0's dispatch loop. -/
theorem prep_ligands_truncates (walk : List (String × String))
    (h : (enumeratedUnits walk).Nodup) :
    prep_ligands walk = (enumeratedUnits walk).take 1 ∧
    (prep_ligands walk).length ≤ 1 ∧
    ∀ u ∈ (enumeratedUnits walk).drop 1, u ∉ dispatchOrder (prep_ligands walk) := by
  refine ⟨rfl, List.length_take_le 1 _, ?_⟩
  intro u hu
  unfold prep_ligands
  cases henum : enumeratedUnits walk with
  | nil => rw [henum] at hu; exact absurd hu (by simp)
  | cons a as =>
    rw [henum] at hu h
    rw [List.drop_one, List.tail_cons] at hu
    rw [List.take_cons, List.take_zero]
    rw [show dispatchOrder [a] = [a] from by simp [dispatchOrder]]
    intro hmem
    rw [List.mem_singleton] at hmem
    subst hmem
    exact (List.nodup_cons.mp h).1 hu
    omega

/-- C9 witness: a concrete walk with two `.pkl` units and one `.txt`
file; only the first unit survives and the second is never dispatched. -/
theorem prep_ligands_truncates_witness :
    (enumeratedUnits [("d", "a.pkl"), ("d", "b.pkl"), ("d", "c.txt")]).Nodup ∧
    (prep_ligands [("d", "a.pkl"), ("d", "b.pkl"), ("d", "c.txt")] =
        (enumeratedUnits [("d", "a.pkl"), ("d", "b.pkl"), ("d", "c.txt")]).take 1 ∧
      (prep_ligands [("d", "a.pkl"), ("d", "b.pkl"), ("d", "c.txt")]).length ≤ 1 ∧
      ∀ u ∈ (enumeratedUnits [("d", "a.pkl"), ("d", "b.pkl"), ("d", "c.txt")]).drop 1,
        u ∉ dispatchOrder (prep_ligands [("d", "a.pkl"), ("d", "b.pkl"), ("d", "c.txt")])) :=
  ⟨by decide, prep_ligands_truncates [("d", "a.pkl"), ("d", "b.pkl"), ("d", "c.txt")] (by decide)⟩

/-- C10: when decoding a dispatched unit raises before `ligands` is
assigned, the worker's loop keeps the previous binding: the step leaves
the binding unchanged; right after a successful unit, the failed
iteration re-docks and re-reports the SAME items (equal batches when the
threshold is unchanged); and on a first-iteration failure the name is
unbound, so the caught `NameError` means nothing is emitted. -/
theorem stale_ligands_reuse (mvs : ℚ) :
    (∀ st, (workerStep st mvs UnpickleOutcome.openFail).1 = st) ∧
    (∀ items m, workerEmissions (some items) [(m, UnpickleOutcome.openFail)] =
        [run_docking m items]) ∧
    (∀ items m₁ m₂, workerEmissions none
        [(m₁, UnpickleOutcome.ok items), (m₂, UnpickleOutcome.openFail)] =
        [run_docking m₁ items, run_docking m₂ items]) ∧
    workerEmissions none [(mvs, UnpickleOutcome.openFail)] = [none] :=
  ⟨fun _ => rfl, fun _ _ => rfl, fun _ _ _ => rfl, rfl⟩
